import Mathlib

/-!
Verification of the RunTogether Radcliffe weekly message generator (src/app.py)
against its natural-language specification. The Python source is shallowly
embedded: pure helpers become Lean functions on String and List Char, the
Python float values flowing through the message pipeline are embedded exactly
(distances are stored in tenths of a kilometre since the source rounds them to
one decimal, elevations as integers since the source rounds them to zero
decimals), and fallible code returns Option.
-/

/-- Models Python str.startswith on character lists: does the text begin with the pattern? -/
def startsWithL : List Char → List Char → Bool
  | [], _ => true
  | _ :: _, [] => false
  | p :: ps, c :: cs => p == c && startsWithL ps cs

/-- Models the Python expression sub in s (substring containment) on character lists. -/
def containsSubL (pat : List Char) : List Char → Bool
  | [] => pat.isEmpty
  | c :: cs => startsWithL pat (c :: cs) || containsSubL pat cs

/-- Models the Python expression sub in s for strings. -/
def strContains (s sub : String) : Bool := containsSubL sub.data s.data

/-- Models Python str.lower; character-wise lowering is adequate for the ASCII
tokens the source scans for. -/
def pyLower (s : String) : String := String.mk (s.data.map Char.toLower)

/-- Models Python sep.join(parts). -/
def pyJoin (sep : String) : List String → String
  | [] => ""
  | [x] => x
  | x :: y :: rest => x ++ sep ++ pyJoin sep (y :: rest)

/-- First character of a string, if any; used to separate the fixed copy pools. -/
def firstChar (s : String) : Option Char := s.data.head?

/-- Deterministic index derivation standing in for the Mersenne-Twister stream of
random.Random(key): a pure function of the key string alone. The source builds a
fresh private generator from the key and draws one uniform index; no claim
depends on which index the real generator yields, only on it being a function
of the key, so the generator internals are modelled by a concrete string hash. -/
def strHash (s : String) : Nat := s.data.foldl (fun h c => (h * 31 + c.toNat) % 1000003) 7

/-- Embeds seeded_choice(options, seed, tag) from src/app.py:
rnd = random.Random(f"{seed}:{tag}"); return rnd.choice(options).
Python rnd.choice raises IndexError on an empty sequence; the program only calls
it on the non-empty constant pools, and the empty case here returns "". -/
def seeded_choice (options : List String) (seed tag : String) : String :=
  (options.get? (strHash (seed ++ ":" ++ tag) % options.length)).getD ""

/-- The hidden state of the Python random module global generator (random.random
and friends). seeded_choice never touches it: it constructs a private
random.Random instance seeded only from its arguments. -/
structure PyGlobals where
  rngState : Nat
deriving DecidableEq

/-- seeded_choice with the interpreter global RNG state threaded explicitly:
the source neither reads nor advances that state. -/
def seeded_choiceSt (options : List String) (seed tag : String) (g : PyGlobals) :
    String × PyGlobals :=
  (seeded_choice options seed tag, g)

/-- ELEVATION_TEXT_CHOICES from src/app.py: (lo, hi, pool) bands scanned in order. -/
def ELEVATION_TEXT_CHOICES : List (Int × Int × List String) := [
  (0, 20, [
    "flat as a pancake 🥞",
    "pancake-flat",
    "nice and flat",
    "no climbs to worry about"]),
  (20, 60, [
    "a gently rolling route 🌿",
    "soft ups and downs",
    "a touch of undulation",
    "lightly rolling"]),
  (60, 140, [
    "some hills this week ⛰️",
    "a few punchy rises",
    "rolling with a couple of climbs",
    "a bit lumpy"]),
  (140, 99999, [
    "hilly – bring your climbing legs! 🧗",
    "properly hilly",
    "plenty of climbing on tap",
    "a big-elevation outing"])]

/-- The for-loop of describe_elevation: first band with lo <= elev < hi wins. -/
def describeElevGo (e : Int) (seed : String) : List (Int × Int × List String) → String
  | [] => "varied terrain"
  | (lo, hi, choices) :: rest =>
    if lo ≤ e ∧ e < hi then
      seeded_choice choices seed ("elev_" ++ toString lo ++ "_" ++ toString hi)
    else describeElevGo e seed rest

/-- Embeds describe_elevation(total_elev_m, seed) from src/app.py. Elevations in
the pipeline are Python floats carrying integral values (the Strava adapter
rounds to zero decimals), embedded as Int. -/
def describe_elevation (total_elev_m : Int) (seed : String) : String :=
  describeElevGo total_elev_m seed ELEVATION_TEXT_CHOICES

/-- Calendar dates are embedded as integer day numbers with day 0 a Monday, so
that weekday d matches Python date.weekday() (Monday = 0 ... Sunday = 6). -/
def weekday (d : Int) : Int := d % 7

/-- Embeds next_thursday(today) from src/app.py:
days_ahead = (3 - today.weekday()) % 7; return today + timedelta(days_ahead).
Python % on a positive modulus is Int.emod. -/
def next_thursday (today : Int) : Int := today + (3 - weekday today) % 7

/-- GREETINGS pool from src/app.py. -/
def GREETINGS : List String := [
  "👋 Hope you\u0027re having a great week!",
  "Hey team!",
  "Hiya!",
  "Evening crew!",
  "Hello runners!",
  "Ready to run?"]

/-- THURSDAY_LEADS pool from src/app.py. -/
def THURSDAY_LEADS : List String := [
  "Here\u0027s what\u0027s lined up for Thursday…",
  "Thursday\u0027s nearly here – time to lace up!",
  "Fancy a Thursday run? Here\u0027s the plan…",
  "This week\u0027s routes are looking good:",
  "Two routes ready for you this Thursday:"]

/-- ROUTE_INTROS_GENERAL pool from src/app.py. -/
def ROUTE_INTROS_GENERAL : List String := [
  "🛣️ This week we’ve got two route options to choose from:",
  "🗺️ Pick your route – two options this week:",
  "🏃 Two choices – take your pick:",
  "📍 Two routes on offer this Thursday:"]

/-- TRAIL_INTROS pool from src/app.py. -/
def TRAIL_INTROS : List String := [
  "🌿 Summer trails are calling – expect softer ground and scenery!",
  "🌳 Trail time! Let\u0027s enjoy the paths while the light lasts.",
  "🟢 Trails this week – watch your footing and enjoy the views."]

/-- ROAD_INTROS pool from src/app.py. -/
def ROAD_INTROS : List String := [
  "🚦 It\u0027s road time as the evenings draw in.",
  "💡 Running after dark means roads this week.",
  "🛣️ Sticking to the roads tonight for safety."]

/-- SAFETY_NOTES pool from src/app.py. -/
def SAFETY_NOTES : List String := [
  "If you’re able to join us, please ensure you have your lights with you and wear hi-vis clothing.",
  "Please bring a headtorch and wear hi-vis so we can all be seen.",
  "Pack your lights and pop on some hi‑vis for the darker miles, please."]

/-- OUTROS pool from src/app.py. -/
def OUTROS : List String := [
  "👟 Grab your shoes, bring your smiles – see you Thursday!",
  "See you at 7:00pm – let\u0027s make it a good one!",
  "Bring a mate, say hello, and enjoy the miles!",
  "Happy running – see you soon!"]

/-- EVENT_TEMPLATES dict from src/app.py, as a lookup by key. -/
def EVENT_TEMPLATES : String → List String
  | "Social after the run" => [
      "🍻 After the run, many of us are going for drinks and food at the market – come along for a friendly social!",
      "🍻 Post‑run social at the market – come for a drink and a bite!"]
  | "Wear it green" => [
      "🟩 It\u0027s Mental Health Awareness Week – we\u0027re encouraging everyone to wear something green. Afterwards, join us at the market for a relaxed social.",
      "🟩 Wear something green for Mental Health Awareness Week, and stick around after for a market social."]
  | "Pride" => [
      "🏳️‍🌈 Our Pride Run coincides with Manchester Pride – wear something colourful and show your support!",
      "🏳️‍🌈 Pride week! Bring the colour and the good vibes."]
  | _ => []

/-- Embeds build_intro(seed, terrain, special) from src/app.py; the special
parameter is accepted and unused, as in the source. -/
def build_intro (seed terrain special : String) : String :=
  let g := seeded_choice GREETINGS seed "greet"
  let t := seeded_choice THURSDAY_LEADS seed "lead"
  let bits := [g, t] ++
    (if terrain = "trail" then [seeded_choice TRAIL_INTROS seed "trail"]
     else if terrain = "road" then [seeded_choice ROAD_INTROS seed "road"]
     else [])
  pyJoin " " bits

/-- The text list accumulated by special_event_blurb for a non-empty event
cell: four membership checks in source order (social, rtr on tour, wear it
green, pride), each appending at most one fragment. meet_maps is the Python
Optional[str] map link with None and "" both falsy, embedded as a String
tested against "". -/
def event_parts (event_cell meet_maps seed : String) : List String :=
  let e := pyLower event_cell
  (if strContains e "social" then
    [seeded_choice (EVENT_TEMPLATES "Social after the run") seed "ev_social"] else []) ++
  (if strContains e "rtr on tour" ∧ meet_maps ≠ "" then
    ["📍 We\u0027re on tour! Tap for the meet point: " ++ meet_maps] else []) ++
  (if strContains e "wear it green" then
    [seeded_choice (EVENT_TEMPLATES "Wear it green") seed "ev_green"] else []) ++
  (if strContains e "pride" then
    [seeded_choice (EVENT_TEMPLATES "Pride") seed "ev_pride"] else [])

/-- The fragment list of special_event_blurb: the accumulated parts, or the
generic fallback line when no token matched. -/
def event_fragments (event_cell meet_maps seed : String) : List String :=
  if event_parts event_cell meet_maps seed = [] then
    ["🎉 This week features: " ++ event_cell]
  else event_parts event_cell meet_maps seed

/-- Embeds special_event_blurb(event_cell, meet_maps, seed) from src/app.py. -/
def special_event_blurb (event_cell meet_maps seed : String) : String :=
  if event_cell = "" then "" else pyJoin "\n" (event_fragments event_cell meet_maps seed)

/-- One (label, url, km, elev, landmarks) tuple of the routes argument of
platform_blocks. km holds the distance in tenths of a kilometre (the Strava
adapter rounds distance_km to one decimal; the Python truthiness test km is
km ≠ 0); elev holds the integral elevation in metres. -/
structure RouteInfo where
  label : String
  url : String
  km : Nat
  elev : Int
  landmarks : List String
deriving DecidableEq

/-- Renders a tenths-of-km distance the way f"{km:.1f}" renders the
one-decimal floats of the pipeline. -/
def fmtKm (tenths : Nat) : String := toString (tenths / 10) ++ "." ++ toString (tenths % 10)

/-- One iteration of the route loop in platform_blocks: the bullet line, then
the metrics line when km is truthy, then the landmarks line when non-empty.
The elevation descriptor is seeded with the intro, as in the source. -/
def routeLines (intro : String) (r : RouteInfo) : List String :=
  ["• " ++ (r.label ++ (": " ++ r.url))] ++
  (if r.km ≠ 0 then
    ["  " ++ (fmtKm r.km ++ (" km with " ++ (toString r.elev ++ ("m of elevation – " ++
      describe_elevation r.elev intro))))] else []) ++
  (if r.landmarks ≠ [] then
    ["  🏞️ This route passes " ++ pyJoin ", " r.landmarks] else [])

/-- The ordered line list that platform_blocks assembles before joining with
newlines and applying platform formatting. safety_note is Optional[str]; the
inclusion test is terrain_flag == "road" and safety_note (None and "" falsy). -/
def platform_lines (intro route_intro meet_point : String) (routes : List RouteInfo)
    (terrain_flag : String) (safety_note : Option String) (event_text outro : String) :
    List String :=
  [intro, "", "📍 Meeting at: " ++ meet_point, "🕖 We set off at 7:00pm", "", route_intro] ++
  routes.flatMap (routeLines intro) ++
  (if terrain_flag = "road" ∧ safety_note.getD "" ≠ "" then ["", safety_note.getD ""] else []) ++
  (if event_text ≠ "" then ["", event_text] else []) ++
  ["", "📲 Book now: https://groups.runtogether.co.uk/RunTogetherRadcliffe/Runs",
   "❌ Can’t make it? Cancel at least 1 hour before: https://groups.runtogether.co.uk/My/BookedRuns",
   "", outro]

/-- The per-platform tail of platform_blocks: Email returns the text, WhatsApp
bolds the two fixed labels via wa_bold, Facebook and Instagram return the text,
and the final else branch returns the text unchanged. -/
def applyPlatform (platform text : String) : String :=
  if platform = "Email" then text
  else if platform = "WhatsApp" then
    (text.replace "Meeting at:" "*Meeting at:*").replace "We set off at 7:00pm"
      "*We set off at 7:00pm*"
  else if platform = "Facebook" ∨ platform = "Instagram" then text
  else text

/-- Embeds platform_blocks(platform, intro=..., ..., outro=...) from src/app.py.
depart_time is accepted and unused, as in the source. -/
def platform_blocks (platform intro route_intro meet_point depart_time : String)
    (routes : List RouteInfo) (terrain_flag : String) (safety_note : Option String)
    (event_text outro : String) : String :=
  applyPlatform platform
    (pyJoin "\n" (platform_lines intro route_intro meet_point routes terrain_flag
      safety_note event_text outro))

/-- The terrain_flag expression of generator_page:
"trail" if "trail" in notes.lower() else "road" if "after dark" in notes.lower() else "". -/
def terrain_flag_of (notes : String) : String :=
  if strContains (pyLower notes) "trail" then "trail"
  else if strContains (pyLower notes) "after dark" then "road"
  else ""

/-- The safety_note expression of generator_page:
seeded_choice(SAFETY_NOTES, seed, "safety") if terrain_flag == "road" else None. -/
def gen_safety_note (seed terrain_flag : String) : Option String :=
  if terrain_flag = "road" then some (seeded_choice SAFETY_NOTES seed "safety") else none

/-- The line list produced by generator_page for one schedule record: the
wiring of terrain_flag, build_intro, route_intro, safety_note, event_text and
outro from src/app.py, feeding platform_lines. -/
def render_lines (notes special meet_point meet_link seed : String)
    (routes : List RouteInfo) : List String :=
  let tf := terrain_flag_of notes
  let intro := build_intro seed tf special
  let route_intro := seeded_choice ROUTE_INTROS_GENERAL seed "route_intro"
  let sn := gen_safety_note seed tf
  let ev := special_event_blurb special meet_link seed
  let outro := seeded_choice OUTROS seed "outro"
  platform_lines intro route_intro meet_point routes tf sn ev outro

/-- The full message generator_page hands to st.text_area: the joined and
platform-formatted line list. -/
def render_message (platform notes special meet_point meet_link seed : String)
    (routes : List RouteInfo) : String :=
  applyPlatform platform (pyJoin "\n" (render_lines notes special meet_point meet_link seed routes))

/-- Python split(sep) for a single separator character, on character lists:
consecutive separators yield empty segments, and the empty text yields [[]]. -/
def splitOnCharL (sep : Char) : List Char → List (List Char)
  | [] => [[]]
  | a :: t =>
    if a = sep then [] :: splitOnCharL sep t
    else
      match splitOnCharL sep t with
      | [] => [[a]]
      | h :: r => (a :: h) :: r

/-- Models Python url.strip(c): remove leading and trailing runs of c. -/
def pyStripChar (sep : Char) (s : String) : String :=
  String.mk (((s.data.dropWhile (· == sep)).reverse.dropWhile (· == sep)).reverse)

/-- Models Python url.split(c) for a one-character separator. -/
def pySplitChar (sep : Char) (s : String) : List String :=
  (splitOnCharL sep s.data).map String.mk

/-- Digit-run parser of the Python int(str) grammar: a non-empty digit
sequence, with single underscores allowed between digits. -/
def pyDigitsGo : Nat → List Char → Option Nat
  | acc, [] => some acc
  | _, ['_'] => none
  | acc, '_' :: c :: cs =>
    if c.isDigit then pyDigitsGo (acc * 10 + (c.toNat - 48)) cs else none
  | acc, c :: cs =>
    if c.isDigit then pyDigitsGo (acc * 10 + (c.toNat - 48)) cs else none

/-- Parses a digit run per Python int(str) (ASCII digits). -/
def pyDigits : List Char → Option Nat
  | [] => none
  | c :: cs => if c.isDigit then pyDigitsGo (c.toNat - 48) cs else none

/-- Models Python int(s) on strings: surrounding whitespace is ignored, an
optional sign precedes a digit run; anything else raises ValueError, here none. -/
def pyInt (s : String) : Option Int :=
  let t := (s.data.dropWhile Char.isWhitespace).reverse.dropWhile Char.isWhitespace |>.reverse
  match t with
  | '+' :: rest => (pyDigits rest).map Int.ofNat
  | '-' :: rest => (pyDigits rest).map (fun n => -(n : Int))
  | rest => (pyDigits rest).map Int.ofNat

/-- Embeds extract_route_id_from_strava_url(url) from src/app.py:
parts = url.strip("/").split("/"); idx = parts.index("routes");
return int(parts[idx+1]), with every exception path returning None. -/
def extract_route_id_from_strava_url (url : String) : Option Int :=
  let parts := pySplitChar '/' (pyStripChar '/' url)
  match parts.findIdx? (· == "routes") with
  | none => none
  | some idx =>
    match parts.get? (idx + 1) with
    | none => none
    | some s => pyInt s

/-- Direct recursive reading of extract_route_id_from_strava_url: walk to the
first "routes" segment and parse the next segment as a Python int. -/
def firstRoutesNext : List String → Option Int
  | [] => none
  | a :: rest =>
    if a = "routes" then
      match rest with
      | [] => none
      | s :: _ => pyInt s
    else firstRoutesNext rest

/-- Modelled from the spec: the reading of C9 under which the URL merely has to
contain some "routes" segment immediately followed by an integer segment. -/
def routesSegmentFollowedByInt (url : String) : Prop :=
  let parts := pySplitChar '/' (pyStripChar '/' url)
  ∃ i s, parts.get? i = some "routes" ∧ parts.get? (i + 1) = some s ∧ (pyInt s).isSome

/-- Modelled from the spec: the same blurb with the membership checks evaluated
in the order the spec states (social, then wear-it-green, then pride, then
on-tour). Used only to compare the stated order against the source order. -/
def special_event_blurb_specOrder (event_cell meet_maps seed : String) : String :=
  if event_cell = "" then "" else
  let e := pyLower event_cell
  let t :=
    (if strContains e "social" then
      [seeded_choice (EVENT_TEMPLATES "Social after the run") seed "ev_social"] else []) ++
    (if strContains e "wear it green" then
      [seeded_choice (EVENT_TEMPLATES "Wear it green") seed "ev_green"] else []) ++
    (if strContains e "pride" then
      [seeded_choice (EVENT_TEMPLATES "Pride") seed "ev_pride"] else []) ++
    (if strContains e "rtr on tour" ∧ meet_maps ≠ "" then
      ["📍 We\u0027re on tour! Tap for the meet point: " ++ meet_maps] else [])
  pyJoin "\n" (if t = [] then ["🎉 This week features: " ++ event_cell] else t)

/-- A drawn fragment always comes from its pool when the pool is non-empty. -/
theorem seeded_choice_mem (options : List String) (h : options ≠ []) (s t : String) :
    seeded_choice options s t ∈ options := by
  unfold seeded_choice
  have hlen : 0 < options.length := List.length_pos.mpr h
  have hlt : strHash (s ++ ":" ++ t) % options.length < options.length := Nat.mod_lt _ hlen
  rw [List.get?_eq_getElem?, List.getElem?_eq_getElem hlt]
  exact List.getElem_mem _

/-- A non-empty string has a non-empty character list. -/
theorem data_ne_nil (s : String) (h : s ≠ "") : s.data ≠ [] :=
  fun hd => h (String.ext hd)

/-- Appending to a non-empty string keeps the first character. -/
theorem fc_append (a b : String) (h : a ≠ "") : firstChar (a ++ b) = firstChar a := by
  unfold firstChar
  rw [String.data_append]
  cases hd : a.data with
  | nil => exact absurd (String.ext hd) h
  | cons c t => simp

/-- Appending to a non-empty string is non-empty. -/
theorem append_ne_empty (a b : String) (h : a ≠ "") : a ++ b ≠ "" := by
  intro he
  have hd := congrArg String.data he
  rw [String.data_append] at hd
  exact h (String.ext (List.append_eq_nil.mp hd).1)

/-- A Python join of a list with non-empty head starts with the head first character. -/
theorem fc_pyJoin (sep x : String) (xs : List String) (h : x ≠ "") :
    firstChar (pyJoin sep (x :: xs)) = firstChar x := by
  cases xs with
  | nil => rfl
  | cons y ys =>
    show firstChar (x ++ sep ++ pyJoin sep (y :: ys)) = firstChar x
    rw [fc_append _ _ (append_ne_empty _ _ h), fc_append _ _ h]

/-- Every safety note is non-empty and starts with I or P. -/
theorem safety_notes_shape :
    ∀ n ∈ SAFETY_NOTES, n ≠ "" ∧ (firstChar n = some 'I' ∨ firstChar n = some 'P') := by
  decide

/-- A string whose first character is neither I nor P is not a safety note. -/
theorem not_note_of_head (n l : String) (hn : n ∈ SAFETY_NOTES)
    (h1 : firstChar l ≠ some 'I') (h2 : firstChar l ≠ some 'P') : n ≠ l := by
  intro e
  cases e
  rcases (safety_notes_shape n hn).2 with h | h
  · exact h1 h
  · exact h2 h

/-- No greeting is empty or starts with I or P. -/
theorem greetings_ok :
    ∀ g ∈ GREETINGS, g ≠ "" ∧ firstChar g ≠ some 'I' ∧ firstChar g ≠ some 'P' := by decide

/-- No general route intro is empty or starts with I or P. -/
theorem route_intros_ok :
    ∀ g ∈ ROUTE_INTROS_GENERAL, g ≠ "" ∧ firstChar g ≠ some 'I' ∧ firstChar g ≠ some 'P' := by
  decide

/-- No outro is empty or starts with I or P. -/
theorem outros_ok :
    ∀ g ∈ OUTROS, g ≠ "" ∧ firstChar g ≠ some 'I' ∧ firstChar g ≠ some 'P' := by decide

/-- No event template fragment, for any key, is empty or starts with I or P. -/
theorem event_templates_ok (key : String) :
    ∀ g ∈ EVENT_TEMPLATES key, g ≠ "" ∧ firstChar g ≠ some 'I' ∧ firstChar g ≠ some 'P' := by
  unfold EVENT_TEMPLATES
  split
  · decide
  · decide
  · decide
  · decide

/-- C3: for any seed, tag and non-empty options, seeded_choice returns the same
element of options on any two invocations, and the interpreter global RNG
state is neither consulted (the result is identical under any two global
states) nor modified. -/
theorem seeded_choice_deterministic (seed tag : String) (options : List String)
    (h : options ≠ []) (g g' : PyGlobals) :
    (seeded_choiceSt options seed tag g).1 = (seeded_choiceSt options seed tag g').1 ∧
    (seeded_choiceSt options seed tag g).2 = g ∧
    (seeded_choiceSt options seed tag g).1 ∈ options :=
  ⟨rfl, rfl, seeded_choice_mem options h seed tag⟩

/-- C3 witness at a concrete pool and two different global states. -/
theorem seeded_choice_deterministic_witness :
    (seeded_choiceSt ["a", "b", "c"] "2025-06-19" "greet" ⟨0⟩).1 =
      (seeded_choiceSt ["a", "b", "c"] "2025-06-19" "greet" ⟨99⟩).1 ∧
    (seeded_choiceSt ["a", "b", "c"] "2025-06-19" "greet" ⟨0⟩).2 = ⟨0⟩ ∧
    (seeded_choiceSt ["a", "b", "c"] "2025-06-19" "greet" ⟨0⟩).1 ∈ ["a", "b", "c"] :=
  seeded_choice_deterministic "2025-06-19" "greet" ["a", "b", "c"] (by decide) ⟨0⟩ ⟨99⟩

/-- C4 counterexample: day 3 is a Thursday (weekday 3), and next_thursday
returns it unchanged rather than seven days later. -/
theorem next_thursday_counterexample :
    weekday 3 = 3 ∧ next_thursday 3 = 3 ∧ next_thursday 3 ≠ 3 + 7 := by decide

/-- C4 (amended): next_thursday returns the next Thursday on or after the
given day: the result is a Thursday, lies within the same week, and when the
given day is itself a Thursday it is returned unchanged (zero days ahead). -/
theorem next_thursday_on_or_after (d : Int) :
    weekday (next_thursday d) = 3 ∧ d ≤ next_thursday d ∧ next_thursday d ≤ d + 6 ∧
    (weekday d = 3 → next_thursday d = d) := by
  unfold next_thursday weekday
  omega

/-- C4 witness: the amended theorem applied to the Thursday day 3 and to day 10. -/
theorem next_thursday_on_or_after_witness : next_thursday 3 = 3 :=
  (next_thursday_on_or_after 3).2.2.2 (by decide)

/-- C10: when the event text mentions rtr on tour (case-insensitively) but the
map link is empty, and none of social, wear it green, pride match, the blurb is
exactly the single generic fallback line echoing the raw event text. -/
theorem on_tour_without_link_fallback (e maps seed : String)
    (h1 : strContains (pyLower e) "rtr on tour" = true)
    (h2 : strContains (pyLower e) "social" = false)
    (h3 : strContains (pyLower e) "wear it green" = false)
    (h4 : strContains (pyLower e) "pride" = false)
    (h5 : maps = "") :
    special_event_blurb e maps seed = "🎉 This week features: " ++ e := by
  have he : e ≠ "" := fun h => absurd (h ▸ h1) (by decide)
  unfold special_event_blurb event_fragments event_parts
  rw [if_neg he]
  simp [h1, h2, h3, h4, h5, pyJoin]

/-- C10 witness at a concrete on-tour event with no link. -/
theorem on_tour_without_link_fallback_witness :
    special_event_blurb "RTR on tour" "" "S1" = "🎉 This week features: " ++ "RTR on tour" :=
  on_tour_without_link_fallback "RTR on tour" "" "S1" (by decide) (by decide) (by decide)
    (by decide) rfl

/-- C6 counterexample: the unrecognized platform value "Telegram" renders the
very same message as Email (the final else branch of platform_blocks), instead
of failing with an UnknownPlatformError. -/
theorem unknown_platform_counterexample :
    ("Telegram" : String) ∉ ["WhatsApp", "Facebook", "Instagram", "Email"] ∧
    platform_blocks "Telegram" "intro" "routes:" "Radcliffe Market" "7:00pm" [] "" none "" "bye" =
      platform_blocks "Email" "intro" "routes:" "Radcliffe Market" "7:00pm" [] "" none "" "bye" := by
  constructor
  · decide
  · rfl

/-- C6 (amended): a platform outside the recognized four-member enumeration is
silently given the plain (Email) formatting by the final else branch; no error
is raised. -/
theorem unknown_platform_falls_back (platform : String)
    (h : platform ∉ ["WhatsApp", "Facebook", "Instagram", "Email"])
    (intro route_intro mp dt : String) (routes : List RouteInfo) (tf : String)
    (sn : Option String) (ev outro : String) :
    platform_blocks platform intro route_intro mp dt routes tf sn ev outro =
      platform_blocks "Email" intro route_intro mp dt routes tf sn ev outro := by
  simp only [List.mem_cons, List.not_mem_nil, or_false, not_or] at h
  obtain ⟨hw, hf, hi, he⟩ := h
  unfold platform_blocks applyPlatform
  rw [if_neg he, if_neg hw, if_neg (by simp [hf, hi]), if_pos rfl]

/-- C6 witness: the amended theorem applied to the platform value "SMS". -/
theorem unknown_platform_falls_back_witness :
    platform_blocks "SMS" "hi" "pick:" "market" "7:00pm" [] "road" none "" "see you" =
      platform_blocks "Email" "hi" "pick:" "market" "7:00pm" [] "road" none "" "see you" :=
  unknown_platform_falls_back "SMS" (by decide) "hi" "pick:" "market" "7:00pm" [] "road" none ""
    "see you"

/-- C7 counterexample: an elevation gain of 99999 m is at least 140 m, yet its
descriptor is the fixed fallback "varied terrain", not drawn from the top band
pool. -/
theorem elevation_top_band_counterexample :
    (140 : Int) ≤ 99999 ∧ describe_elevation 99999 "S1" = "varied terrain" ∧
    "varied terrain" ∉ ["hilly – bring your climbing legs! 🧗", "properly hilly",
      "plenty of climbing on tap", "a big-elevation outing"] := by decide

/-- C7 (amended): the bands partition [0, 99999): gains in [140, 99999) draw
from the top band pool, while gains of at least 99999 (and negative gains) get
the fixed fallback "varied terrain"; and whenever a route has a truthy distance
the indented metrics line, with tenth-precision distance, integer elevation and
the seeded band descriptor, is one of the assembled message lines. -/
theorem elevation_bands_and_metrics_line (elev : Int) (seed : String) :
    (140 ≤ elev → elev < 99999 →
      describe_elevation elev seed ∈ ["hilly – bring your climbing legs! 🧗", "properly hilly",
        "plenty of climbing on tap", "a big-elevation outing"]) ∧
    (99999 ≤ elev → describe_elevation elev seed = "varied terrain") ∧
    (elev < 0 → describe_elevation elev seed = "varied terrain") ∧
    (∀ (intro route_intro mp tf ev outro : String) (sn : Option String)
      (routes : List RouteInfo) (r : RouteInfo), r ∈ routes → r.km ≠ 0 →
      ("  " ++ (fmtKm r.km ++ (" km with " ++ (toString r.elev ++ ("m of elevation – " ++
        describe_elevation r.elev intro))))) ∈
        platform_lines intro route_intro mp routes tf sn ev outro) := by
  refine ⟨?_, ?_, ?_, ?_⟩
  · intro h1 h2
    simp only [describe_elevation, ELEVATION_TEXT_CHOICES, describeElevGo]
    rw [if_neg (by omega), if_neg (by omega), if_neg (by omega), if_pos (by omega)]
    exact seeded_choice_mem _ (by decide) _ _
  · intro h1
    simp only [describe_elevation, ELEVATION_TEXT_CHOICES, describeElevGo]
    rw [if_neg (by omega), if_neg (by omega), if_neg (by omega), if_neg (by omega)]
  · intro h1
    simp only [describe_elevation, ELEVATION_TEXT_CHOICES, describeElevGo]
    rw [if_neg (by omega), if_neg (by omega), if_neg (by omega), if_neg (by omega)]
  · intro intro route_intro mp tf ev outro sn routes r hr hkm
    unfold platform_lines
    refine List.mem_append.mpr (Or.inl (List.mem_append.mpr (Or.inl
      (List.mem_append.mpr (Or.inl (List.mem_append.mpr (Or.inr ?_)))))))
    refine List.mem_flatMap.mpr ⟨r, hr, ?_⟩
    unfold routeLines
    rw [if_pos hkm]
    simp

/-- C7 witness: the amended theorem applied at elevations 150, 100000 and -5,
and to a concrete route with truthy distance. -/
theorem elevation_bands_and_metrics_line_witness :
    describe_elevation 150 "S1" ∈ ["hilly – bring your climbing legs! 🧗", "properly hilly",
      "plenty of climbing on tap", "a big-elevation outing"] ∧
    describe_elevation 100000 "S1" = "varied terrain" ∧
    describe_elevation (-5) "S1" = "varied terrain" ∧
    ("  " ++ (fmtKm 82 ++ (" km with " ++ (toString (150 : Int) ++ ("m of elevation – " ++
      describe_elevation 150 "hi"))))) ∈
      platform_lines "hi" "pick:" "market" [⟨"8k", "https://x/8k", 82, 150, []⟩] "" none "" "bye" :=
  ⟨(elevation_bands_and_metrics_line 150 "S1").1 (by decide) (by decide),
   (elevation_bands_and_metrics_line 100000 "S1").2.1 (by decide),
   (elevation_bands_and_metrics_line (-5) "S1").2.2.1 (by decide),
   (elevation_bands_and_metrics_line 150 "S1").2.2.2 "hi" "pick:" "market" "" "" "bye" none
     [⟨"8k", "https://x/8k", 82, 150, []⟩] ⟨"8k", "https://x/8k", 82, 150, []⟩ (by decide)
     (by decide)⟩

/-- C9 counterexample: the URL "a/routes/x/routes/5" does contain a "routes"
segment immediately followed by an integer segment, yet the function returns
None because it only ever looks after the FIRST "routes" segment. -/
theorem extract_route_id_counterexample :
    extract_route_id_from_strava_url "a/routes/x/routes/5" = none ∧
    routesSegmentFollowedByInt "a/routes/x/routes/5" := by
  constructor
  · decide
  · exact ⟨3, "5", by decide, by decide, by decide⟩

/-- C9 (amended): extract_route_id_from_strava_url equals the direct walk that
finds the FIRST "routes" segment of the stripped and split URL and parses the
next segment as a Python integer; every exception path of the source (no
"routes" segment, nothing after it, unparseable id) is the None branch of this
total function, so nothing ever escapes to the caller. -/
theorem extract_route_id_uses_first_routes (url : String) :
    extract_route_id_from_strava_url url =
      firstRoutesNext (pySplitChar '/' (pyStripChar '/' url)) := by
  unfold extract_route_id_from_strava_url
  generalize pySplitChar '/' (pyStripChar '/' url) = parts
  dsimp only
  induction parts with
  | nil => rfl
  | cons a t ih =>
    rw [List.findIdx?_cons]
    by_cases ha : a = "routes"
    · subst ha
      rw [if_pos (by simp)]
      cases t with
      | nil => rfl
      | cons s rest => rfl
    · rw [if_neg (by simp [ha]), List.findIdx?_succ,
        show firstRoutesNext (a :: t) = firstRoutesNext t by simp [firstRoutesNext, ha], ← ih]
      cases hfi : t.findIdx? (· == "routes") with
      | none => simp
      | some j => simp

/-- C5 counterexample: for an event mentioning both rtr-on-tour (with a link)
and wear-it-green, the source emits the on-tour line BEFORE the green
fragment, so the blurb differs from the one produced by the order the claim
states (social, green, pride, on-tour). -/
theorem special_event_order_counterexample :
    special_event_blurb "rtr on tour wear it green" "MAPLINK" "s0" ≠
      special_event_blurb_specOrder "rtr on tour wear it green" "MAPLINK" "s0" ∧
    (event_fragments "rtr on tour wear it green" "MAPLINK" "s0").head? =
      some ("📍 We\u0027re on tour! Tap for the meet point: MAPLINK") := by
  constructor
  · decide
  · decide

/-- C5 (amended): the membership checks run in the source order social,
on-tour, green, pride, one fragment per matched token (the on-tour line is a
fixed link line, only included when the map link is non-empty): for the input
"Pride social this week" the blurb is exactly the social fragment followed by
the pride fragment; a social match is always the head fragment; and with
on-tour plus green matched the on-tour line precedes the green fragment. -/
theorem special_event_order (seed maps : String) :
    special_event_blurb "Pride social this week" maps seed =
      seeded_choice (EVENT_TEMPLATES "Social after the run") seed "ev_social" ++ "\n" ++
        seeded_choice (EVENT_TEMPLATES "Pride") seed "ev_pride" ∧
    (∀ e, strContains (pyLower e) "social" = true →
      (event_fragments e maps seed).head? =
        some (seeded_choice (EVENT_TEMPLATES "Social after the run") seed "ev_social")) ∧
    (∀ e, strContains (pyLower e) "social" = false →
      strContains (pyLower e) "rtr on tour" = true → maps ≠ "" →
      strContains (pyLower e) "wear it green" = true →
      strContains (pyLower e) "pride" = false →
      event_fragments e maps seed =
        ["📍 We\u0027re on tour! Tap for the meet point: " ++ maps,
         seeded_choice (EVENT_TEMPLATES "Wear it green") seed "ev_green"]) := by
  refine ⟨?_, ?_, ?_⟩
  · have h1 : strContains (pyLower "Pride social this week") "social" = true := by decide
    have h2 : strContains (pyLower "Pride social this week") "rtr on tour" = false := by decide
    have h3 : strContains (pyLower "Pride social this week") "wear it green" = false := by decide
    have h4 : strContains (pyLower "Pride social this week") "pride" = true := by decide
    unfold special_event_blurb event_fragments event_parts
    rw [if_neg (by decide)]
    simp [h1, h2, h3, h4, pyJoin]
  · intro e hsoc
    unfold event_fragments event_parts
    simp [hsoc]
  · intro e h1 h2 h3 h4 h5
    unfold event_fragments event_parts
    simp [h1, h2, h3, h4, h5]

/-- C5 witness: the amended theorem applied at concrete events and seed. -/
theorem special_event_order_witness :
    special_event_blurb "Pride social this week" "L" "w0" =
      seeded_choice (EVENT_TEMPLATES "Social after the run") "w0" "ev_social" ++ "\n" ++
        seeded_choice (EVENT_TEMPLATES "Pride") "w0" "ev_pride" ∧
    (event_fragments "Social night" "L" "w0").head? =
      some (seeded_choice (EVENT_TEMPLATES "Social after the run") "w0" "ev_social") ∧
    event_fragments "rtr on tour plus wear it green" "L" "w0" =
      ["📍 We\u0027re on tour! Tap for the meet point: " ++ "L",
       seeded_choice (EVENT_TEMPLATES "Wear it green") "w0" "ev_green"] :=
  ⟨(special_event_order "w0" "L").1,
   (special_event_order "w0" "L").2.1 "Social night" (by decide),
   (special_event_order "w0" "L").2.2 "rtr on tour plus wear it green" (by decide) (by decide)
     (by decide) (by decide) (by decide)⟩

/-- The route loop renders the bullet line of every route in the list. -/
theorem bullet_mem_render (notes special mp ml seed : String) (routes : List RouteInfo)
    (r : RouteInfo) (hr : r ∈ routes) :
    ("• " ++ (r.label ++ (": " ++ r.url))) ∈ render_lines notes special mp ml seed routes := by
  unfold render_lines
  dsimp only
  unfold platform_lines
  refine List.mem_append.mpr (Or.inl (List.mem_append.mpr (Or.inl (List.mem_append.mpr (Or.inl
    (List.mem_append.mpr (Or.inr ?_)))))))
  exact List.mem_flatMap.mpr ⟨r, hr, by simp [routeLines]⟩

/-- C2 counterexample: a record whose 5k link cell is blank (name defaulted to
"5k route" by cell_text, URL empty) still gets its bullet line rendered: the
slot is not excluded even though the URL is empty. -/
theorem route_line_empty_url_counterexample :
    (RouteInfo.url ⟨"5k route", "", 0, 0, []⟩) = "" ∧
    ("• " ++ ("5k route" ++ (": " ++ ""))) ∈
      render_lines "Road, after dark" "" "Radcliffe Market" "" "S1"
        [⟨"8k route", "https://x/8k", 0, 0, []⟩, ⟨"5k route", "", 0, 0, []⟩] := by
  constructor
  · rfl
  · decide

/-- C2 (amended): every route slot of the record produces its bulleted route
line in the rendered output, whether or not its name or URL is empty; no slot
is excluded by the rendering. -/
theorem route_bullet_always_rendered (notes special mp ml seed : String)
    (routes : List RouteInfo) (r : RouteInfo) (hr : r ∈ routes) :
    ("• " ++ (r.label ++ (": " ++ r.url))) ∈ render_lines notes special mp ml seed routes :=
  bullet_mem_render notes special mp ml seed routes r hr

/-- C2 witness: the amended theorem applied to a concrete one-route record. -/
theorem route_bullet_always_rendered_witness :
    ("• " ++ ("8k" ++ (": " ++ "https://x/8k"))) ∈
      render_lines "" "" "market" "" "s9" [⟨"8k", "https://x/8k", 0, 0, []⟩] :=
  route_bullet_always_rendered "" "" "market" "" "s9" [⟨"8k", "https://x/8k", 0, 0, []⟩]
    ⟨"8k", "https://x/8k", 0, 0, []⟩ (by decide)

/-- C8 counterexample: in a concrete rendering with a 5k route, the only line
mentioning 5k is the bare bullet "• 5k: https://x/5k": no alternative
completion suffix is appended anywhere. -/
theorem five_k_suffix_counterexample :
    ("• " ++ ("5k" ++ (": " ++ "https://x/5k"))) ∈
      render_lines "Road, after dark" "" "Radcliffe market" "" "S1"
        [⟨"8k", "https://x/8k", 0, 0, []⟩, ⟨"5k", "https://x/5k", 0, 0, []⟩] ∧
    (render_lines "Road, after dark" "" "Radcliffe market" "" "S1"
        [⟨"8k", "https://x/8k", 0, 0, []⟩, ⟨"5k", "https://x/5k", 0, 0, []⟩]).all
      (fun l => !(strContains l "5k") || l == "• 5k: https://x/5k") = true := by
  constructor
  · decide
  · decide

/-- C8 (amended): the bullet line of a 5k-labeled route is exactly "• 5k: "
followed by the URL, with no suffix note; the other lines of its route section
are indented continuation lines starting with a space; and the bullet appears
in the rendered output whenever the route is in the record. -/
theorem five_k_bullet_plain (intro url : String) (km : Nat) (elev : Int) (lms : List String) :
    (routeLines intro ⟨"5k", url, km, elev, lms⟩).head? =
      some ("• " ++ ("5k" ++ (": " ++ url))) ∧
    (∀ l ∈ routeLines intro ⟨"5k", url, km, elev, lms⟩,
      l = "• " ++ ("5k" ++ (": " ++ url)) ∨ firstChar l = some ' ') ∧
    (∀ notes special mp ml seed routes, (⟨"5k", url, km, elev, lms⟩ : RouteInfo) ∈ routes →
      ("• " ++ ("5k" ++ (": " ++ url))) ∈ render_lines notes special mp ml seed routes) := by
  refine ⟨?_, ?_, ?_⟩
  · simp [routeLines]
  · intro l hl
    unfold routeLines at hl
    rcases List.mem_append.mp hl with h | h
    · rcases List.mem_append.mp h with h2 | h2
      · exact Or.inl (List.mem_singleton.mp h2)
      · right
        split at h2
        · rw [List.mem_singleton.mp h2, fc_append _ _ (by decide)]
          decide
        · exact absurd h2 (List.not_mem_nil l)
    · right
      split at h
      · rw [List.mem_singleton.mp h, fc_append _ _ (by decide)]
        decide
      · exact absurd h (List.not_mem_nil l)
  · intro notes special mp ml seed routes hr
    exact bullet_mem_render notes special mp ml seed routes _ hr

/-- C8 witness: the amended theorem applied to a concrete 5k route. -/
theorem five_k_bullet_plain_witness :
    (routeLines "I" ⟨"5k", "https://u", 0, 0, []⟩).head? =
      some ("• " ++ ("5k" ++ (": " ++ "https://u"))) ∧
    ("• " ++ ("5k" ++ (": " ++ "https://u")) = "• " ++ ("5k" ++ (": " ++ "https://u")) ∨
      firstChar ("• " ++ ("5k" ++ (": " ++ "https://u"))) = some ' ') ∧
    ("• " ++ ("5k" ++ (": " ++ "https://u"))) ∈
      render_lines "" "" "m" "" "w1" [⟨"5k", "https://u", 0, 0, []⟩] :=
  ⟨(five_k_bullet_plain "I" "https://u" 0 0 []).1,
   (five_k_bullet_plain "I" "https://u" 0 0 []).2.1 _ (by decide),
   (five_k_bullet_plain "I" "https://u" 0 0 []).2.2 "" "" "m" "" "w1" _ (by decide)⟩

/-- A two-or-more element join unfolds to head, separator, rest. -/
theorem pyJoin_cons2 (sep x y : String) (xs : List String) :
    pyJoin sep (x :: y :: xs) = x ++ sep ++ pyJoin sep (y :: xs) := rfl

/-- The event fragment list is never empty: the fallback line guards it. -/
theorem event_fragments_ne_nil (e m s : String) : event_fragments e m s ≠ [] := by
  unfold event_fragments
  split
  · simp
  · rename_i h
    exact h

/-- Every accumulated event part is non-empty and starts with neither I nor P. -/
theorem event_parts_ok (e m s : String) :
    ∀ f ∈ event_parts e m s, f ≠ "" ∧ firstChar f ≠ some 'I' ∧ firstChar f ≠ some 'P' := by
  intro f hf
  unfold event_parts at hf
  dsimp only at hf
  rcases List.mem_append.mp hf with h3 | h3
  · rcases List.mem_append.mp h3 with h2 | h2
    · rcases List.mem_append.mp h2 with h1 | h1
      · split at h1
        · rw [List.mem_singleton] at h1
          subst h1
          exact event_templates_ok "Social after the run" _
            (seeded_choice_mem _ (by decide) s "ev_social")
        · exact absurd h1 (List.not_mem_nil f)
      · split at h1
        · rw [List.mem_singleton] at h1
          subst h1
          refine ⟨append_ne_empty _ _ (by decide), ?_, ?_⟩ <;>
            rw [fc_append _ _ (by decide)] <;> decide
        · exact absurd h1 (List.not_mem_nil f)
    · split at h2
      · rw [List.mem_singleton] at h2
        subst h2
        exact event_templates_ok "Wear it green" _
          (seeded_choice_mem _ (by decide) s "ev_green")
      · exact absurd h2 (List.not_mem_nil f)
  · split at h3
    · rw [List.mem_singleton] at h3
      subst h3
      exact event_templates_ok "Pride" _ (seeded_choice_mem _ (by decide) s "ev_pride")
    · exact absurd h3 (List.not_mem_nil f)

/-- Every event fragment is non-empty and starts with neither I nor P. -/
theorem event_fragments_head_ok (e m s : String) :
    ∀ f ∈ event_fragments e m s, f ≠ "" ∧ firstChar f ≠ some 'I' ∧ firstChar f ≠ some 'P' := by
  intro f hf
  unfold event_fragments at hf
  split at hf
  · rw [List.mem_singleton] at hf
    subst hf
    refine ⟨append_ne_empty _ _ (by decide), ?_, ?_⟩ <;>
      rw [fc_append _ _ (by decide)] <;> decide
  · exact event_parts_ok e m s f hf

/-- The built intro is non-empty and starts with a greeting first character,
hence with neither I nor P. -/
theorem build_intro_ok (seed terrain special : String) :
    build_intro seed terrain special ≠ "" ∧
    firstChar (build_intro seed terrain special) ≠ some 'I' ∧
    firstChar (build_intro seed terrain special) ≠ some 'P' := by
  unfold build_intro
  dsimp only
  have hg := greetings_ok _ (seeded_choice_mem GREETINGS (by decide) seed "greet")
  simp only [List.cons_append, List.nil_append, pyJoin_cons2]
  refine ⟨append_ne_empty _ _ (append_ne_empty _ _ hg.1), ?_, ?_⟩
  · rw [fc_append _ _ (append_ne_empty _ _ hg.1), fc_append _ _ hg.1]
    exact hg.2.1
  · rw [fc_append _ _ (append_ne_empty _ _ hg.1), fc_append _ _ hg.1]
    exact hg.2.2

/-- The terrain flag is "road" exactly when the notes mention after dark but
not trail (case-insensitively): the trail check runs first in the source. -/
theorem terrain_road_iff (notes : String) :
    terrain_flag_of notes = "road" ↔
      (strContains (pyLower notes) "after dark" = true ∧
       strContains (pyLower notes) "trail" = false) := by
  unfold terrain_flag_of
  by_cases h1 : strContains (pyLower notes) "trail" <;>
    by_cases h2 : strContains (pyLower notes) "after dark" <;>
      simp [h1, h2]

/-- A non-empty event blurb starts with neither I nor P. -/
theorem special_event_blurb_ok (e m s : String) (h : special_event_blurb e m s ≠ "") :
    firstChar (special_event_blurb e m s) ≠ some 'I' ∧
    firstChar (special_event_blurb e m s) ≠ some 'P' := by
  unfold special_event_blurb at *
  by_cases he : e = ""
  · rw [if_pos he] at h
    exact absurd rfl h
  · rw [if_neg he]
    obtain ⟨f, fs, hffs⟩ := List.exists_cons_of_ne_nil (event_fragments_ne_nil e m s)
    have hfok := event_fragments_head_ok e m s f (by rw [hffs]; exact List.mem_cons_self f fs)
    rw [hffs, fc_pyJoin _ _ _ hfok.1]
    exact ⟨hfok.2.1, hfok.2.2⟩

/-- C1 counterexample: for notes mentioning both trail and after dark, no
safety note appears anywhere among the rendered lines, although the notes do
contain "after dark": the trail classification suppresses the note. -/
theorem safety_note_trail_counterexample :
    strContains (pyLower "Trail, after dark") "after dark" = true ∧
    ¬ (∃ n ∈ SAFETY_NOTES,
        n ∈ render_lines "Trail, after dark" "" "Radcliffe Market" "" "S1" []) := by
  constructor
  · decide
  · decide

/-- C1 (amended): a safety note is among the rendered message lines exactly
when the surface notes contain "after dark" AND do not contain "trail"
(case-insensitive): trail classification takes precedence and suppresses the
note; the line list itself is platform-independent (platform formatting is
applied only after joining). -/
theorem safety_note_iff_after_dark_without_trail (notes special mp ml seed : String)
    (routes : List RouteInfo) :
    (∃ n ∈ SAFETY_NOTES, n ∈ render_lines notes special mp ml seed routes) ↔
      (strContains (pyLower notes) "after dark" = true ∧
       strContains (pyLower notes) "trail" = false) := by
  rw [← terrain_road_iff notes]
  unfold render_lines
  dsimp only
  unfold platform_lines gen_safety_note
  constructor
  · rintro ⟨n, hn, hmem⟩
    rcases List.mem_append.mp hmem with h | h
    · rcases List.mem_append.mp h with h | h
      · rcases List.mem_append.mp h with h | h
        · rcases List.mem_append.mp h with h | h
          · simp only [List.mem_cons, List.not_mem_nil, or_false] at h
            rcases h with h | h | h | h | h | h
            · exact absurd h (not_note_of_head n _ hn
                (build_intro_ok seed _ special).2.1 (build_intro_ok seed _ special).2.2)
            · exact absurd h (safety_notes_shape n hn).1
            · refine absurd h (not_note_of_head n _ hn ?_ ?_) <;>
                rw [fc_append _ _ (by decide)] <;> decide
            · exact absurd h (not_note_of_head n _ hn (by decide) (by decide))
            · exact absurd h (safety_notes_shape n hn).1
            · have hri := route_intros_ok _
                (seeded_choice_mem ROUTE_INTROS_GENERAL (by decide) seed "route_intro")
              exact absurd h (not_note_of_head n _ hn hri.2.1 hri.2.2)
          · obtain ⟨r, hr, hmemr⟩ := List.mem_flatMap.mp h
            unfold routeLines at hmemr
            rcases List.mem_append.mp hmemr with h2 | h2
            · rcases List.mem_append.mp h2 with h3 | h3
              · rw [List.mem_singleton] at h3
                refine absurd h3 (not_note_of_head n _ hn ?_ ?_) <;>
                  rw [fc_append _ _ (by decide)] <;> decide
              · split at h3
                · rw [List.mem_singleton] at h3
                  refine absurd h3 (not_note_of_head n _ hn ?_ ?_) <;>
                    rw [fc_append _ _ (by decide)] <;> decide
                · exact absurd h3 (List.not_mem_nil n)
            · split at h2
              · rw [List.mem_singleton] at h2
                refine absurd h2 (not_note_of_head n _ hn ?_ ?_) <;>
                  rw [fc_append _ _ (by decide)] <;> decide
              · exact absurd h2 (List.not_mem_nil n)
        · split at h
          · rename_i hcond
            exact hcond
          · rename_i hncond
            rw [if_neg (fun hc => hncond hc.1)] at h
            exact absurd h (List.not_mem_nil n)
      · split at h
        · rename_i hev
          simp only [List.mem_cons, List.not_mem_nil, or_false] at h
          rcases h with h | h
          · exact absurd h (safety_notes_shape n hn).1
          · have hok := special_event_blurb_ok special ml seed hev
            exact absurd h (not_note_of_head n _ hn hok.1 hok.2)
        · exact absurd h (List.not_mem_nil n)
    · simp only [List.mem_cons, List.not_mem_nil, or_false] at h
      rcases h with h | h | h | h | h
      · exact absurd h (safety_notes_shape n hn).1
      · exact absurd h (not_note_of_head n _ hn (by decide) (by decide))
      · exact absurd h (not_note_of_head n _ hn (by decide) (by decide))
      · exact absurd h (safety_notes_shape n hn).1
      · have ho := outros_ok _ (seeded_choice_mem OUTROS (by decide) seed "outro")
        exact absurd h (not_note_of_head n _ hn ho.2.1 ho.2.2)
  · intro htf
    have hmem : seeded_choice SAFETY_NOTES seed "safety" ∈ SAFETY_NOTES :=
      seeded_choice_mem _ (by decide) seed "safety"
    have hne : seeded_choice SAFETY_NOTES seed "safety" ≠ "" :=
      (safety_notes_shape _ hmem).1
    refine ⟨seeded_choice SAFETY_NOTES seed "safety", hmem, ?_⟩
    refine List.mem_append.mpr (Or.inl (List.mem_append.mpr (Or.inl
      (List.mem_append.mpr (Or.inr ?_)))))
    rw [htf, if_pos rfl, if_pos ⟨rfl, hne⟩]
    simp
